import Mathlib

/-!
Shallow embedding of `be/src/connector/jdbc_connector.cpp` (StarRocks JDBC
foreign-table scan connector): the query builder `get_jdbc_sql`, and the
`JDBCDataSource` session (`open`/`get_next`/`close`, rows-read counter).
The `vectorized::JDBCScanner` collaborator is declared in
`exec/vectorized/jdbc_scanner.h`, which is not part of the sources here, so
its boundary behaviour is modelled from the spec (see the doc comments).
-/

/-- Status values the connector's functions return: `Status::OK()`,
`Status::EndOfFile("")`, and error statuses (driver-resolution errors,
scanner errors), which carry a message. -/
inductive Status where
  | ok
  | endOfFile
  | error (msg : String)
deriving DecidableEq, Repr

/-- Result of one `JDBCScanner::get_next` call at the RemoteScanner boundary:
either an error status, or a chunk holding `rows` rows together with the
end-of-stream flag `eos` the call wrote. -/
inductive FetchResult where
  | err (msg : String)
  | batch (rows : Nat) (eos : Bool)
deriving DecidableEq, Repr

/-- Modelled from the spec: the `vectorized::JDBCScanner` (RemoteScanner)
state. `results` is the sequence of outcomes its remaining fetches will
produce; `done` records that it already signalled end-of-data (after which
every further fetch signals end-of-data again); `closed` records that its
native resources were released by `close`. -/
structure JDBCScanner where
  closed : Bool
  done : Bool
  results : List FetchResult
deriving DecidableEq, Repr

/-- Modelled from the spec: one `JDBCScanner::get_next(state, chunk, &eos)`
call. A scanner that has signalled end-of-data keeps signalling it;
otherwise the next queued outcome is produced, and producing an outcome
whose `eos` flag is set moves the scanner to the end-of-data state. -/
def JDBCScanner.get_next (s : JDBCScanner) : FetchResult × JDBCScanner :=
  if s.done then (.batch 0 true, s)
  else
    match s.results with
    | [] => (.batch 0 true, { s with done := true })
    | .err m :: rest => (.err m, { s with results := rest })
    | .batch n e :: rest =>
        (.batch n e,
         if e then { s with done := true, results := rest }
         else { s with results := rest })

theorem JDBCScanner.get_next_continue_length {s s' : JDBCScanner} {n : Nat}
    (h : s.get_next = (.batch n false, s')) :
    s'.results.length < s.results.length := by
  unfold JDBCScanner.get_next at h
  split at h
  · simp at h
  · cases hr : s.results with
    | nil => rw [hr] at h; simp at h
    | cons r rest =>
      rw [hr] at h
      cases r with
      | err m => simp at h
      | batch n2 e2 =>
        cases e2 with
        | true => simp at h
        | false =>
          simp at h
          rw [← h.2]
          simp

/-- The do-while loop in `JDBCDataSource::get_next`:
`do { RETURN_IF_ERROR(_scanner->get_next(state, chunk, &eos)); }
 while (!eos && (*chunk)->num_rows() == 0);` — fetch from the scanner,
and fetch again as long as no end-of-stream was signalled and the chunk is
still empty. Returns the final fetch outcome and scanner state. -/
def scanLoop (s : JDBCScanner) : FetchResult × JDBCScanner :=
  match h : s.get_next with
  | (.err m, s') => (.err m, s')
  | (.batch n e, s') =>
      if e = false ∧ n = 0 then scanLoop s' else (.batch n e, s')
termination_by s.results.length
decreasing_by
  rename_i he
  exact JDBCScanner.get_next_continue_length (he.1 ▸ h)

/-- The `JDBCDataSource` session state visible in the claims: the owned
scanner (`_scanner`, null until `_create_scanner` assigns it) and the
`_rows_read` counter (0 on construction). -/
structure JDBCDataSource where
  scanner : Option JDBCScanner
  rows_read : Nat
deriving DecidableEq, Repr

/-- A freshly constructed session: no scanner yet, `_rows_read` = 0. -/
def JDBCDataSource.init : JDBCDataSource := ⟨none, 0⟩

/-- `JDBCDataSource::get_next`: run the fetch loop; on an error status
propagate it; if the loop ended because the scanner signalled end-of-stream
return `Status::EndOfFile` (delivering no batch and leaving `_rows_read`
untouched); otherwise add the chunk's row count to `_rows_read` and return
the batch with `Status::OK`. The middle component is the batch handed to
the caller (`some` row-count) or `none` when no batch is delivered.
(The source dereferences `_scanner` without a null check, so a session
whose open never succeeded must not reach this call; that unreachable case
is mapped to an error status.) -/
def JDBCDataSource.get_next (d : JDBCDataSource) : Status × Option Nat × JDBCDataSource :=
  match d.scanner with
  | none => (.error "null scanner", none, d)
  | some s =>
      match scanLoop s with
      | (.err m, s') => (.error m, none, { d with scanner := some s' })
      | (.batch n e, s') =>
          if e then (.endOfFile, none, { d with scanner := some s' })
          else (.ok, some n, ⟨some s', d.rows_read + n⟩)

/-- `JDBCDataSource::raw_rows_read`: returns `_rows_read`. -/
def JDBCDataSource.raw_rows_read (d : JDBCDataSource) : Nat := d.rows_read

/-- `JDBCDataSource::num_rows_read`: returns `_rows_read`. -/
def JDBCDataSource.num_rows_read (d : JDBCDataSource) : Nat := d.rows_read

/-- Modelled from the spec: `JDBCScanner::close` releases the scanner's
native resources; release is the transition of `closed` to true. -/
def JDBCScanner.close (s : JDBCScanner) : JDBCScanner := { s with closed := true }

/-- `JDBCDataSource::close`: `if (_scanner != nullptr) { _scanner->reset_jni_env();
_scanner->close(state); }` — a no-op when no scanner was ever created,
otherwise closes the owned scanner. (`reset_jni_env` only re-attaches the
JNI environment and is modelled as a no-op.) `close` returns void: it has
no error channel. -/
def JDBCDataSource.close (d : JDBCDataSource) : JDBCDataSource :=
  match d.scanner with
  | none => d
  | some s => { d with scanner := some s.close }

/-- `JDBCDataSource::_create_scanner` followed by the tail of
`JDBCDataSource::open`: `resolved` is the outcome of
`JDBCDriverManager::get_driver_location` (driver location, or a
driver-resolution error message); on resolution failure that status is
returned before `_scanner` is ever assigned; otherwise the scanner `sc` is
constructed, assigned to `_scanner`, and its `open` outcome `sc_open` is
propagated (`Status::OK()` on success). -/
def JDBCDataSource.open (d : JDBCDataSource) (resolved : Except String String)
    (sc : JDBCScanner) (sc_open : Status) : Status × JDBCDataSource :=
  match resolved with
  | .error e => (.error e, d)
  | .ok _loc =>
      let d' := { d with scanner := some sc }
      match sc_open with
      | .ok => (.ok, d')
      | st => (st, d')

/-- Drive a session through `k` successive `get_next` calls, collecting each
call's status and delivered batch, and the final session state. -/
def JDBCDataSource.run (d : JDBCDataSource) : Nat → List (Status × Option Nat) × JDBCDataSource
  | 0 => ([], d)
  | k + 1 =>
      let r := d.get_next
      let rest := r.2.2.run k
      ((r.1, r.2.1) :: rest.1, rest.2)

/-- Total row count of the batches delivered to the caller in a list of
`get_next` outcomes. -/
def deliveredRows (outs : List (Status × Option Nat)) : Nat :=
  (outs.map (fun o => match o.2 with | some n => n | none => 0)).sum

/-- The column part of `get_jdbc_sql`: for each column index `i` the code
streams `(i == 0 ? "" : ",")`, then `" "`, then the column. -/
def colClause : List String → String
  | [] => ""
  | c :: cs => "" ++ " " ++ c ++ String.join (cs.map (fun x => "," ++ " " ++ x))

/-- The WHERE part of `get_jdbc_sql`: nothing when `filters` is empty,
otherwise `" WHERE "` followed by, for each filter index `i`,
`(i == 0 ? "" : " AND")` then `"(" << filters[i] << ")"`. -/
def whereClause : List String → String
  | [] => ""
  | f :: fs =>
      " WHERE " ++ ("" ++ "(" ++ f ++ ")")
        ++ String.join (fs.map (fun x => " AND" ++ "(" ++ x ++ ")"))

/-- `get_jdbc_sql(table, columns, filters, limit)`: streams `"SELECT"`, the
column list, `" FROM " << table`, the WHERE clause, and — when
`limit != -1` — `" LIMIT " << limit`. `limit` is an `int64_t`; -1 is the
no-limit sentinel. -/
def get_jdbc_sql (table : String) (columns : List String)
    (filters : List String) (limit : Int) : String :=
  "SELECT" ++ colClause columns ++ " FROM " ++ table ++ whereClause filters
    ++ (if limit ≠ -1 then " LIMIT " ++ toString limit else "")

/-- Written from the spec's words (§4.1/§8): the column list of the query,
`<col1>, <col2>, ...` preceded by a space, empty when there is no column. -/
def specColumnList : List String → String
  | [] => ""
  | c :: cs => " " ++ String.intercalate ", " (c :: cs)

/-- Written from the spec's words (§4.1/§8): the optional single WHERE
clause, each filter independently parenthesized and the parenthesized
filters AND-joined. -/
def specWhereClause (fs : List String) : String :=
  if fs = [] then ""
  else " WHERE " ++ String.intercalate " AND" (fs.map (fun f => "(" ++ f ++ ")"))

/-- Written from the spec's words (§4.1/§8): the optional trailing LIMIT
clause, absent exactly when the limit is the no-limit sentinel -1. -/
def specLimitClause (lim : Int) : String :=
  if lim = -1 then "" else " LIMIT " ++ toString lim

/-! Helper lemmas about the fetch loop. -/

/-- A batch delivered out of the fetch loop without end-of-stream is
non-empty: the loop keeps fetching while the chunk is empty. -/
theorem scanLoop_ok_pos {s s' : JDBCScanner} {n : Nat}
    (h : scanLoop s = (.batch n false, s')) : 0 < n := by
  induction s using scanLoop.induct with
  | case1 s m s2 hm => rw [scanLoop] at h; rw [hm] at h; simp at h
  | case2 s n2 e s2 hm hcond ih =>
      rw [scanLoop] at h; rw [hm] at h; simp [hcond] at h; exact ih h
  | case3 s n2 e s2 hm hcond =>
      rw [scanLoop] at h; rw [hm] at h; simp [hcond] at h
      obtain ⟨⟨hn, he⟩, hs⟩ := h
      subst hn
      simp [he] at hcond
      omega

/-- A scanner fetch that signals end-of-stream leaves the scanner in the
end-of-data state. -/
theorem get_next_eos_done {s s' : JDBCScanner} {n : Nat}
    (h : s.get_next = (.batch n true, s')) : s'.done = true := by
  unfold JDBCScanner.get_next at h
  split at h
  · next hd => simp at h; rw [← h.2]; assumption
  · cases hr : s.results with
    | nil => rw [hr] at h; simp at h; rw [← h.2]
    | cons r rest =>
      rw [hr] at h
      cases r with
      | err m => simp at h
      | batch n2 e2 =>
        cases e2 with
        | false => simp at h
        | true => simp at h; rw [← h.2]

/-- If the fetch loop ends because end-of-stream was signalled, the scanner
is left in the end-of-data state. -/
theorem scanLoop_eos_done {s s' : JDBCScanner} {n : Nat}
    (h : scanLoop s = (.batch n true, s')) : s'.done = true := by
  induction s using scanLoop.induct with
  | case1 s m s2 hm => rw [scanLoop] at h; rw [hm] at h; simp at h
  | case2 s n2 e s2 hm hcond ih =>
      rw [scanLoop] at h; rw [hm] at h; simp [hcond] at h; exact ih h
  | case3 s n2 e s2 hm hcond =>
      rw [scanLoop] at h; rw [hm] at h; simp [hcond] at h
      obtain ⟨⟨hn, he⟩, hs⟩ := h
      subst he hs
      exact get_next_eos_done hm

/-- On a scanner already in the end-of-data state the fetch loop signals
end-of-stream at once and changes nothing. -/
theorem scanLoop_done {s : JDBCScanner} (h : s.done = true) :
    scanLoop s = (.batch 0 true, s) := by
  rw [scanLoop]
  split
  · next m s2 hm => unfold JDBCScanner.get_next at hm; simp [h] at hm
  · next n e s2 hm =>
      unfold JDBCScanner.get_next at hm
      simp [h] at hm
      obtain ⟨⟨hn, he⟩, hs⟩ := hm
      simp [← hn, ← he, ← hs]

/-! Helper lemmas about string concatenation, relating the streaming form of
`get_jdbc_sql` to the spec-shaped clause descriptions. -/

theorem foldl_append_acc (acc : String) (l : List String) :
    l.foldl (fun r s => r ++ s) acc = acc ++ l.foldl (fun r s => r ++ s) "" := by
  induction l generalizing acc with
  | nil => simp
  | cons x xs ih =>
      rw [List.foldl_cons, List.foldl_cons, ih (acc ++ x), ih ("" ++ x)]
      simp [String.append_assoc]

theorem String.intercalate_go_eq_join (s acc : String) (l : List String) :
    String.intercalate.go acc s l = acc ++ String.join (l.map (fun x => s ++ x)) := by
  induction l generalizing acc with
  | nil => simp [String.intercalate.go, String.join]
  | cons x xs ih =>
      rw [String.intercalate.go, ih]
      simp only [String.join, List.map_cons, List.foldl_cons, String.empty_append]
      rw [foldl_append_acc (s ++ x)]
      simp [String.append_assoc]

/-- The column part the code streams equals the spec's comma-separated
column list. -/
theorem colClause_eq_spec (cols : List String) : colClause cols = specColumnList cols := by
  cases cols with
  | nil => rfl
  | cons c cs =>
      rw [colClause, specColumnList]
      rw [String.intercalate, String.intercalate_go_eq_join]
      have hf : (fun x => ", " ++ x) = (fun x => "," ++ " " ++ x) := by
        funext x
        rw [show (", " : String) = "," ++ " " from rfl, String.append_assoc]
      rw [hf]
      simp [String.append_assoc]

/-- The WHERE part the code streams equals the spec's AND-join of the
individually parenthesized filters. -/
theorem whereClause_eq_spec (fs : List String) : whereClause fs = specWhereClause fs := by
  cases fs with
  | nil => rfl
  | cons f fs =>
      rw [whereClause, specWhereClause]
      simp only [List.map_cons, String.intercalate, String.intercalate_go_eq_join,
        List.map_map, reduceIte]
      have hf : ((fun x => " AND" ++ x) ∘ fun x => "(" ++ x ++ ")")
          = (fun x => " AND" ++ "(" ++ x ++ ")") := by
        funext x
        simp only [Function.comp_apply]
        rw [← String.append_assoc, ← String.append_assoc]
      rw [hf]
      simp [String.append_assoc]

/-- One `get_next` call delivers a batch (`some n`) exactly with an OK
status, and then adds exactly `n` to the counter; any call that delivers no
batch leaves the counter unchanged. -/
theorem get_next_counter (d : JDBCDataSource) :
    ((d.get_next).2.2).rows_read
      = d.rows_read + (match (d.get_next).2.1 with | some n => n | none => 0) ∧
    (∀ n, (d.get_next).2.1 = some n → (d.get_next).1 = .ok) := by
  cases hsc : d.scanner with
  | none => simp [JDBCDataSource.get_next, hsc]
  | some s =>
      cases hl : scanLoop s with
      | mk r s' =>
          cases r with
          | err m => simp [JDBCDataSource.get_next, hsc, hl]
          | batch n e =>
              cases e with
              | true => simp [JDBCDataSource.get_next, hsc, hl]
              | false => simp [JDBCDataSource.get_next, hsc, hl]

/-- A session state that `get_next` maps to itself keeps producing the same
status and batch on every further call. -/
theorem run_fixed {d : JDBCDataSource} {st : Status} {b : Option Nat}
    (h : d.get_next = (st, b, d)) (k : Nat) :
    (d.run k).1 = List.replicate k (st, b) ∧ (d.run k).2 = d := by
  induction k with
  | zero => simp [JDBCDataSource.run]
  | succ k ih => simp [JDBCDataSource.run, h, ih.1, ih.2, List.replicate_succ]

/-- Claim C1: a session whose scanner yields batches of sizes
[0,0,5,0,3,0] followed by end-of-data delivers exactly two batches (5 then
3, in that order, each with OK status) across its first three `get_next`
calls, the third call signalling end-of-data; the rows-read counter is 0
before any batch is consumed and 8 after both are consumed. -/
theorem claim_C1 :
    (JDBCDataSource.raw_rows_read
        ⟨some ⟨false, false, [.batch 0 false, .batch 0 false, .batch 5 false,
          .batch 0 false, .batch 3 false, .batch 0 false]⟩, 0⟩ = 0) ∧
    (JDBCDataSource.run
        ⟨some ⟨false, false, [.batch 0 false, .batch 0 false, .batch 5 false,
          .batch 0 false, .batch 3 false, .batch 0 false]⟩, 0⟩ 3).1
      = [(.ok, some 5), (.ok, some 3), (.endOfFile, none)] ∧
    ((JDBCDataSource.run
        ⟨some ⟨false, false, [.batch 0 false, .batch 0 false, .batch 5 false,
          .batch 0 false, .batch 3 false, .batch 0 false]⟩, 0⟩ 2).2).raw_rows_read = 8 := by
  refine ⟨rfl, ?_, ?_⟩ <;>
    simp [JDBCDataSource.run, JDBCDataSource.get_next, scanLoop,
      JDBCScanner.get_next, JDBCDataSource.raw_rows_read]

/-- Claim C2: every batch `get_next` hands to the caller comes with OK
status and a non-zero row count, and when the source signals end the call
returns end-of-data and no batch. -/
theorem claim_C2 (d : JDBCDataSource) :
    ((d.get_next).1 = .ok → ∃ n, (d.get_next).2.1 = some n ∧ 0 < n) ∧
    ((d.get_next).1 = .endOfFile → (d.get_next).2.1 = none) := by
  cases hsc : d.scanner with
  | none => simp [JDBCDataSource.get_next, hsc]
  | some s =>
      cases hl : scanLoop s with
      | mk r s' =>
          cases r with
          | err m => simp [JDBCDataSource.get_next, hsc, hl]
          | batch n e =>
              cases e with
              | true => simp [JDBCDataSource.get_next, hsc, hl]
              | false =>
                  simp [JDBCDataSource.get_next, hsc, hl]
                  exact scanLoop_ok_pos hl

/-- Witness for claim C2 at a session whose scanner yields a 0-row batch
then a 7-row batch. -/
theorem claim_C2_witness :
    ∃ n, ((JDBCDataSource.get_next
        ⟨some ⟨false, false, [.batch 0 false, .batch 7 false]⟩, 0⟩).2.1 = some n ∧ 0 < n) :=
  (claim_C2 ⟨some ⟨false, false, [.batch 0 false, .batch 7 false]⟩, 0⟩).1
    (by simp [JDBCDataSource.get_next, scanLoop, JDBCScanner.get_next])

/-- Claim C3: for every table, column list, filter list and limit the
builder's output decomposes as exactly one SELECT, the column list, one
FROM with the table, the optional single WHERE clause (each filter
individually parenthesized, the parenthesized filters AND-joined) and the
optional trailing LIMIT, in that fixed order; and the two documented
examples hold byte for byte. -/
theorem claim_C3 (t : String) (cols fs : List String) (lim : Int) :
    get_jdbc_sql t cols fs lim
      = "SELECT" ++ specColumnList cols ++ " FROM " ++ t
          ++ specWhereClause fs ++ specLimitClause lim ∧
    get_jdbc_sql "t" ["a", "b"] [] (-1) = "SELECT a, b FROM t" ∧
    get_jdbc_sql "t" ["a"] ["x>1", "y<2"] 10
      = "SELECT a FROM t WHERE (x>1) AND(y<2) LIMIT 10" := by
  refine ⟨?_, by decide, by decide⟩
  rw [get_jdbc_sql, colClause_eq_spec, whereClause_eq_spec, specLimitClause]
  by_cases h : lim = -1 <;> simp [h]

/-- Claim C4: when the limit is not the sentinel -1 the builder appends the
LIMIT clause exactly once, after everything else (in particular after all
predicate fragments); with the sentinel the output is exactly the
limit-free query, so no LIMIT clause appears. -/
theorem claim_C4 (t : String) (cols fs : List String) (lim : Int) :
    get_jdbc_sql t cols fs lim
      = get_jdbc_sql t cols fs (-1)
          ++ (if lim = -1 then "" else " LIMIT " ++ toString lim) := by
  rw [get_jdbc_sql, get_jdbc_sql]
  by_cases h : lim = -1 <;> simp [h, String.append_assoc]

/-- Claim C9: with an empty projected column list the builder emits no
column list and no star: the output begins `SELECT FROM <table>` (single
space between SELECT and FROM), and with no filters and no limit it is
exactly that. -/
theorem claim_C9 (t : String) (fs : List String) (lim : Int) :
    (∃ rest, get_jdbc_sql t [] fs lim = "SELECT FROM " ++ t ++ rest) ∧
    get_jdbc_sql t [] [] (-1) = "SELECT FROM " ++ t := by
  constructor
  · refine ⟨whereClause fs ++ (if lim ≠ -1 then " LIMIT " ++ toString lim else ""), ?_⟩
    rw [get_jdbc_sql, colClause]
    rw [show ("SELECT FROM " : String) = "SELECT" ++ " FROM " from rfl]
    simp [String.append_assoc]
  · rw [get_jdbc_sql, colClause, whereClause]
    rw [show ("SELECT FROM " : String) = "SELECT" ++ " FROM " from rfl]
    simp [String.append_assoc]

/-- Closing a session never changes the rows-read counter. -/
theorem close_preserves_rows (d : JDBCDataSource) : d.close.rows_read = d.rows_read := by
  cases hsc : d.scanner <;> simp [JDBCDataSource.close, hsc]

/-- Claim C5: once `get_next` has returned end-of-data, the counter was left
unchanged by that call and every further `get_next` call returns the same
end-of-data signal with no batch, leaving the session state (and so the
rows-read counter) unchanged. -/
theorem claim_C5 (d : JDBCDataSource) (h : (d.get_next).1 = .endOfFile) :
    ((d.get_next).2.2).rows_read = d.rows_read ∧
    ((d.get_next).2.2).get_next = (.endOfFile, none, (d.get_next).2.2) ∧
    (∀ k, (((d.get_next).2.2).run k).1 = List.replicate k (.endOfFile, none) ∧
      ((((d.get_next).2.2).run k).2).rows_read = d.rows_read) := by
  cases hsc : d.scanner with
  | none => simp [JDBCDataSource.get_next, hsc] at h
  | some s =>
      cases hl : scanLoop s with
      | mk r s' =>
          cases r with
          | err m => simp [JDBCDataSource.get_next, hsc, hl] at h
          | batch n e =>
              cases e with
              | false => simp [JDBCDataSource.get_next, hsc, hl] at h
              | true =>
                  have hd : s'.done = true := scanLoop_eos_done hl
                  have hfix : (JDBCDataSource.mk (some s') d.rows_read).get_next
                      = (.endOfFile, none, ⟨some s', d.rows_read⟩) := by
                    simp [JDBCDataSource.get_next, scanLoop_done hd]
                  refine ⟨?_, ?_, ?_⟩
                  · simp [JDBCDataSource.get_next, hsc, hl]
                  · simp only [JDBCDataSource.get_next, hsc, hl]
                    simpa using hfix
                  · intro k
                    simp only [JDBCDataSource.get_next, hsc, hl]
                    have := run_fixed hfix k
                    simp at this ⊢
                    exact ⟨this.1, by rw [this.2]⟩

/-- Witness for claim C5 at a session whose scanner signals end-of-data on
the first fetch. -/
theorem claim_C5_witness :
    ((JDBCDataSource.get_next ⟨some ⟨false, false, []⟩, 0⟩).2.2).rows_read = 0 ∧
    ((JDBCDataSource.get_next ⟨some ⟨false, false, []⟩, 0⟩).2.2).get_next
      = (.endOfFile, none, (JDBCDataSource.get_next ⟨some ⟨false, false, []⟩, 0⟩).2.2) ∧
    (∀ k, (((JDBCDataSource.get_next ⟨some ⟨false, false, []⟩, 0⟩).2.2).run k).1
        = List.replicate k (.endOfFile, none) ∧
      ((((JDBCDataSource.get_next ⟨some ⟨false, false, []⟩, 0⟩).2.2).run k).2).rows_read = 0) :=
  claim_C5 ⟨some ⟨false, false, []⟩, 0⟩
    (by simp [JDBCDataSource.get_next, scanLoop, JDBCScanner.get_next])

/-- Claim C6: `close` has no error channel; on a session whose scanner was
never created it is a no-op, closing twice is the same as closing once (the
scanner resource is not released a second time), and `close` leaves the
rows-read counter untouched. -/
theorem claim_C6 (d : JDBCDataSource) :
    (d.scanner = none → d.close = d) ∧
    d.close.close = d.close ∧
    d.close.rows_read = d.rows_read := by
  refine ⟨?_, ?_, ?_⟩ <;>
    cases hsc : d.scanner <;>
      simp [JDBCDataSource.close, JDBCScanner.close, hsc]

/-- Witness for claim C6 at a freshly constructed session (no scanner). -/
theorem claim_C6_witness : JDBCDataSource.init.close = JDBCDataSource.init :=
  (claim_C6 JDBCDataSource.init).1 rfl

/-- Claim C7: when driver resolution fails during `open`, that error status
is returned, no scanner is created, `close` on the resulting session is a
no-op, and the rows-read counter is 0. -/
theorem claim_C7 (msg : String) (sc : JDBCScanner) (sc_open : Status) :
    (JDBCDataSource.init.open (.error msg) sc sc_open).1 = .error msg ∧
    ((JDBCDataSource.init.open (.error msg) sc sc_open).2).scanner = none ∧
    ((JDBCDataSource.init.open (.error msg) sc sc_open).2).close
      = (JDBCDataSource.init.open (.error msg) sc sc_open).2 ∧
    ((JDBCDataSource.init.open (.error msg) sc sc_open).2).raw_rows_read = 0 := by
  simp [JDBCDataSource.open, JDBCDataSource.init, JDBCDataSource.close,
    JDBCDataSource.raw_rows_read]

/-- Claim C8: the rows-read counter never decreases under `get_next` or
`close`; a `get_next` call that delivers a batch of `n` rows comes with OK
status and adds exactly `n`, one that delivers no batch adds nothing, and
after any number of calls the counter equals its starting value plus the
total rows of the batches delivered to the caller. -/
theorem claim_C8 (d : JDBCDataSource) (k : Nat) :
    d.rows_read ≤ ((d.get_next).2.2).rows_read ∧
    (∀ n, (d.get_next).2.1 = some n →
      (d.get_next).1 = .ok ∧ ((d.get_next).2.2).rows_read = d.rows_read + n) ∧
    ((d.get_next).2.1 = none → ((d.get_next).2.2).rows_read = d.rows_read) ∧
    d.close.rows_read = d.rows_read ∧
    ((d.run k).2).rows_read = d.rows_read + deliveredRows (d.run k).1 := by
  refine ⟨?_, ?_, ?_, close_preserves_rows d, ?_⟩
  · rw [(get_next_counter d).1]; omega
  · intro n hn
    exact ⟨(get_next_counter d).2 n hn, by rw [(get_next_counter d).1, hn]⟩
  · intro hn
    rw [(get_next_counter d).1, hn]
    simp
  · induction k generalizing d with
    | zero => simp [JDBCDataSource.run, deliveredRows]
    | succ k ih =>
        simp only [JDBCDataSource.run, deliveredRows, List.map_cons, List.sum_cons]
        rw [ih ((d.get_next).2.2), (get_next_counter d).1]
        simp [deliveredRows]
        omega

/-- Witness for claim C8 at a session whose scanner yields one 2-row batch,
run for one step. -/
theorem claim_C8_witness :
    ((JDBCDataSource.get_next ⟨some ⟨false, false, [.batch 2 false]⟩, 0⟩).1 = .ok ∧
      ((JDBCDataSource.get_next ⟨some ⟨false, false, [.batch 2 false]⟩, 0⟩).2.2).rows_read
        = 0 + 2) :=
  (claim_C8 ⟨some ⟨false, false, [.batch 2 false]⟩, 0⟩ 1).2.1 2
    (by simp [JDBCDataSource.get_next, scanLoop, JDBCScanner.get_next])

/-- Claim C10: when the fetch loop stops because the fetch it made signalled
end-of-stream — even if that same fetch returned a chunk with `n` rows —
`get_next` returns end-of-data, delivers no batch to the caller, and adds
nothing to the rows-read counter. -/
theorem claim_C10 (s s' : JDBCScanner) (n : Nat) (r : Nat)
    (h : scanLoop s = (.batch n true, s')) :
    JDBCDataSource.get_next ⟨some s, r⟩ = (.endOfFile, none, ⟨some s', r⟩) := by
  simp [JDBCDataSource.get_next, h]

/-- Witness for claim C10 at a scanner whose first fetch returns 4 rows with
the end-of-stream flag set on the same call. -/
theorem claim_C10_witness :
    JDBCDataSource.get_next ⟨some ⟨false, false, [.batch 4 true]⟩, 0⟩
      = (.endOfFile, none, ⟨some ⟨false, true, []⟩, 0⟩) :=
  claim_C10 ⟨false, false, [.batch 4 true]⟩ ⟨false, true, []⟩ 4 0
    (by simp [scanLoop, JDBCScanner.get_next])
